import Mathlib

/-!
Shallow embedding of the Solar-Crypto-Bot trading services
(`src/services/core/*.py`) and proofs about them.

Python floats are modelled as exact rationals (`ℚ`); `None` becomes
`Option`; database rows become structures; the exchange (Kraken) and
the fallible persistence layer are modelled as explicit outcome
parameters (`Option …`) threaded to the functions that consume them,
mirroring the `try/except` structure of the source.  Irrational
library routines (pandas `std`, `np.log`) are taken as opaque function
parameters, matching the spec's treatment of indicator math as opaque
pure functions.
-/

namespace SolarBot

/-! ### Indicator Engine (`market_analysis_service.py`) -/

/-- Consecutive differences of a series, `np.diff`. -/
def diffs : List ℚ → List ℚ
  | a :: b :: t => (b - a) :: diffs (b :: t)
  | _ => []

/-- The trailing `n` elements of a list, Python `xs[-n:]`. -/
def lastN (n : ℕ) (xs : List ℚ) : List ℚ := xs.drop (xs.length - n)

/-- Arithmetic mean, `np.mean` (0 on the empty list, where numpy would warn). -/
def listMean (xs : List ℚ) : ℚ := xs.sum / xs.length

/-- Average gain over the trailing `period` deltas:
`np.mean(np.where(deltas > 0, deltas, 0)[-period:])` in `calculate_rsi`. -/
def avgGain (prices : List ℚ) (period : ℕ) : ℚ :=
  listMean (lastN period ((diffs prices).map (fun d => if 0 < d then d else 0)))

/-- Average loss over the trailing `period` deltas:
`np.mean(np.where(deltas < 0, -deltas, 0)[-period:])` in `calculate_rsi`. -/
def avgLoss (prices : List ℚ) (period : ℕ) : ℚ :=
  listMean (lastN period ((diffs prices).map (fun d => if d < 0 then -d else 0)))

/-- `MarketAnalysisService.calculate_rsi` (lines 18–35): below
`period + 1` samples return `None`; if the average loss is zero return
100; otherwise `100 - 100 / (1 + rs)` with `rs = avg_gain / avg_loss`. -/
def calculate_rsi (prices : List ℚ) (period : ℕ) : Option ℚ :=
  if prices.length < period + 1 then none
  else
    let ag := avgGain prices period
    let al := avgLoss prices period
    if al = 0 then some 100
    else
      let rs := ag / al
      some (100 - 100 / (1 + rs))

/-- Exponentially weighted mean of a series, pandas
`Series.ewm(span=span).mean()` with the default `adjust=True`:
`y_i = (Σ_{j≤i} (1-α)^(i-j) x_j) / (Σ_{k≤i} (1-α)^k)`, `α = 2/(span+1)`,
computed by the running-numerator/denominator recurrence. -/
def ewmMean (span : ℕ) (xs : List ℚ) : List ℚ :=
  let a : ℚ := 2 / ((span : ℚ) + 1)
  (xs.foldl
    (fun (acc : ℚ × ℚ × List ℚ) x =>
      let num := x + (1 - a) * acc.1
      let den := 1 + (1 - a) * acc.2.1
      (num, den, acc.2.2 ++ [num / den]))
    (0, 0, [])).2.2

/-- `MarketAnalysisService.calculate_macd` (lines 37–50): below
`slow + signal` samples return `(None, None, None)`; otherwise the EWM
fast/slow difference, its EWM signal line, and their difference, each
taken at the latest point. -/
def calculate_macd (prices : List ℚ) (fast slow signal : ℕ) :
    Option ℚ × Option ℚ × Option ℚ :=
  if prices.length < slow + signal then (none, none, none)
  else
    let emaFast := ewmMean fast prices
    let emaSlow := ewmMean slow prices
    let macdLine := List.zipWith (fun a b => a - b) emaFast emaSlow
    let signalLine := ewmMean signal macdLine
    let histogram := List.zipWith (fun a b => a - b) macdLine signalLine
    (macdLine.getLast?, signalLine.getLast?, histogram.getLast?)

/-- `MarketAnalysisService.calculate_bollinger_bands` (lines 52–64).
`stdFn` stands for the pandas rolling sample standard deviation over the
trailing window, an opaque (irrational-valued) library routine taken as
a pure-function parameter. -/
def calculate_bollinger_bands (stdFn : List ℚ → ℚ) (prices : List ℚ)
    (period : ℕ) (std_dev : ℚ) : Option ℚ × Option ℚ × Option ℚ :=
  if prices.length < period then (none, none, none)
  else
    let w := lastN period prices
    let middle := listMean w
    let s := stdFn w
    (some (middle + s * std_dev), some middle, some (middle - s * std_dev))

/-- `MarketAnalysisService.calculate_volatility` (lines 78–84): below
`period + 1` samples return `None`; otherwise the standard deviation of
log returns of the trailing window, annualized.  `logFn` stands for
`np.log`, `stdFn` for `np.std`, `annualFactor` for `sqrt(365*24)`
(all irrational-valued, taken as parameters). -/
def calculate_volatility (logFn : ℚ → ℚ) (stdFn : List ℚ → ℚ)
    (annualFactor : ℚ) (prices : List ℚ) (period : ℕ) : Option ℚ :=
  if prices.length < period + 1 then none
  else some (stdFn (diffs ((lastN (period + 1) prices).map logFn)) * annualFactor)

/-- `MarketAnalysisService.calculate_trend_strength` (lines 100–117):
below `period` samples return `0.0`; otherwise the least-squares slope
of the trailing window (`np.polyfit(x, y, 1)`), normalized by the mean
price, scaled by 1000, absolute value clamped to 1. -/
def calculate_trend_strength (prices : List ℚ) (period : ℕ) : ℚ :=
  if prices.length < period then 0
  else
    let recent := lastN period prices
    let xs := (List.range recent.length).map (fun i => (i : ℚ))
    let xbar := listMean xs
    let ybar := listMean recent
    let sxy := (List.zipWith (fun x y => (x - xbar) * (y - ybar)) xs recent).sum
    let sxx := (xs.map (fun x => (x - xbar) * (x - xbar))).sum
    let slope := sxy / sxx
    let avg_price := listMean recent
    let normalized_slope := slope / avg_price
    min (|normalized_slope| * 1000) 1

/-- `MarketAnalysisService.analyze_volume_profile` (lines 119–135):
below `period` samples return `"UNKNOWN"`; otherwise bucket the ratio of
the latest volume to the trailing mean volume. -/
def analyze_volume_profile (volumes : List ℚ) (period : ℕ) : String :=
  if volumes.length < period then "UNKNOWN"
  else
    let recent := lastN period volumes
    let avg := listMean recent
    let current := volumes.getLastD 0
    let ratio := current / avg
    if ratio > 1.5 then "HIGH"
    else if ratio > 0.8 then "MEDIUM"
    else "LOW"

/-! ### Basic facts about the indicator helpers -/

theorem listMean_nonneg (xs : List ℚ) (h : ∀ x ∈ xs, 0 ≤ x) : 0 ≤ listMean xs := by
  unfold listMean
  exact div_nonneg (List.sum_nonneg h) (by positivity)

theorem avgGain_nonneg (prices : List ℚ) (period : ℕ) : 0 ≤ avgGain prices period := by
  unfold avgGain
  refine listMean_nonneg _ ?_
  intro x hx
  unfold lastN at hx
  have hx' := List.mem_of_mem_drop hx
  rcases List.mem_map.1 hx' with ⟨d, _, rfl⟩
  split
  · next h => exact h.le
  · exact le_refl 0

theorem avgLoss_nonneg (prices : List ℚ) (period : ℕ) : 0 ≤ avgLoss prices period := by
  unfold avgLoss
  refine listMean_nonneg _ ?_
  intro x hx
  unfold lastN at hx
  have hx' := List.mem_of_mem_drop hx
  rcases List.mem_map.1 hx' with ⟨d, _, rfl⟩
  split
  · next h => exact (neg_nonneg.2 h.le)
  · exact le_refl 0

/-- C8: for a price series with at least `period + 1 = 15` samples, RSI
returns a value in `[0, 100]`, which is exactly 100 when the trailing
average loss is zero; for shorter series it returns `none`
("unavailable"). -/
theorem calculate_rsi_range (prices : List ℚ) :
    (15 ≤ prices.length →
      ∃ r, calculate_rsi prices 14 = some r ∧ 0 ≤ r ∧ r ≤ 100 ∧
        (avgLoss prices 14 = 0 → r = 100)) ∧
    (prices.length < 15 → calculate_rsi prices 14 = none) := by
  constructor
  · intro hlen
    unfold calculate_rsi
    rw [if_neg (by omega)]
    by_cases hal : avgLoss prices 14 = 0
    · refine ⟨100, ?_, by norm_num, by norm_num, fun _ => rfl⟩
      simp [hal]
    · have hag : 0 ≤ avgGain prices 14 := avgGain_nonneg prices 14
      have hal0 : 0 ≤ avgLoss prices 14 := avgLoss_nonneg prices 14
      have hrs : 0 ≤ avgGain prices 14 / avgLoss prices 14 := div_nonneg hag hal0
      refine ⟨100 - 100 / (1 + avgGain prices 14 / avgLoss prices 14), by simp [hal], ?_, ?_, ?_⟩
      · have h1 : (0 : ℚ) ≤ 100 := by norm_num
        have h2 : (1 : ℚ) ≤ 1 + avgGain prices 14 / avgLoss prices 14 := by linarith
        have := div_le_self h1 h2
        linarith
      · have h2 : (0 : ℚ) < 1 + avgGain prices 14 / avgLoss prices 14 := by linarith
        have : (0 : ℚ) ≤ 100 / (1 + avgGain prices 14 / avgLoss prices 14) :=
          div_nonneg (by norm_num) h2.le
        linarith
      · intro h; exact absurd h hal
  · intro hlen
    unfold calculate_rsi
    rw [if_pos (by omega)]

/-- Witness for `calculate_rsi_range`: a 15-sample series yields an
available RSI within `[0, 100]`; a single-sample series is
unavailable. -/
theorem calculate_rsi_range_witness :
    15 ≤ (List.replicate 15 (1 : ℚ)).length ∧
      calculate_rsi (List.replicate 15 (1 : ℚ)) 14 ≠ none ∧
      0 ≤ (calculate_rsi (List.replicate 15 (1 : ℚ)) 14).getD 0 ∧
      (calculate_rsi (List.replicate 15 (1 : ℚ)) 14).getD 0 ≤ 100 ∧
      ([1] : List ℚ).length < 15 ∧ calculate_rsi [1] 14 = none := by
  obtain ⟨r, hr, h0, h100, -⟩ :=
    (calculate_rsi_range (List.replicate 15 (1 : ℚ))).1 (by decide)
  refine ⟨by decide, ?_, ?_, ?_, by decide, (calculate_rsi_range [1]).2 (by decide)⟩
  · rw [hr]; simp
  · rw [hr]; simpa using h0
  · rw [hr]; simpa using h100

/-- C6 counterexample: on a series shorter than its window (here one
sample, window 20), `calculate_trend_strength` returns the numeric
value `0.0` — it has no "unavailable" result at all (its return type in
the source is a bare `float`), contradicting the claim that every
indicator returns "unavailable" below its minimum window. -/
theorem calculate_trend_strength_short_is_numeric :
    calculate_trend_strength [1] 20 = 0 := by decide

/-- C6 (amended): below its minimum window, each of RSI, MACD,
Bollinger and volatility returns `None` ("unavailable") and the volume
profile returns the sentinel `"UNKNOWN"`, while `calculate_trend_strength`
returns the numeric default `0.0` instead of an unavailable marker. -/
theorem indicator_min_window_spec (prices volumes : List ℚ)
    (stdFn : List ℚ → ℚ) (logFn : ℚ → ℚ) (annualFactor std_dev : ℚ) :
    (prices.length < 15 → calculate_rsi prices 14 = none) ∧
    (prices.length < 35 → calculate_macd prices 12 26 9 = (none, none, none)) ∧
    (prices.length < 20 →
      calculate_bollinger_bands stdFn prices 20 std_dev = (none, none, none)) ∧
    (prices.length < 21 →
      calculate_volatility logFn stdFn annualFactor prices 20 = none) ∧
    (volumes.length < 20 → analyze_volume_profile volumes 20 = "UNKNOWN") ∧
    (prices.length < 20 → calculate_trend_strength prices 20 = 0) := by
  refine ⟨fun h => ?_, fun h => ?_, fun h => ?_, fun h => ?_, fun h => ?_, fun h => ?_⟩
  · unfold calculate_rsi; rw [if_pos (by omega)]
  · unfold calculate_macd; rw [if_pos (by omega)]
  · unfold calculate_bollinger_bands; rw [if_pos (by omega)]
  · unfold calculate_volatility; rw [if_pos (by omega)]
  · unfold analyze_volume_profile; rw [if_pos (by omega)]
  · unfold calculate_trend_strength; rw [if_pos (by omega)]

/-- Witness for `indicator_min_window_spec` at a one-sample series. -/
theorem indicator_min_window_spec_witness :
    ([1] : List ℚ).length < 15 ∧ calculate_rsi [1] 14 = none ∧
      calculate_macd [1] 12 26 9 = (none, none, none) ∧
      calculate_bollinger_bands (fun _ => 0) [1] 20 2 = (none, none, none) ∧
      calculate_volatility (fun _ => 0) (fun _ => 0) 0 [1] 20 = none ∧
      analyze_volume_profile [1] 20 = "UNKNOWN" :=
  ⟨by decide,
    (indicator_min_window_spec [1] [1] (fun _ => 0) (fun _ => 0) 0 2).1 (by decide),
    (indicator_min_window_spec [1] [1] (fun _ => 0) (fun _ => 0) 0 2).2.1 (by decide),
    (indicator_min_window_spec [1] [1] (fun _ => 0) (fun _ => 0) 0 2).2.2.1 (by decide),
    (indicator_min_window_spec [1] [1] (fun _ => 0) (fun _ => 0) 0 2).2.2.2.1 (by decide),
    (indicator_min_window_spec [1] [1] (fun _ => 0) (fun _ => 0) 0 2).2.2.2.2.1 (by decide)⟩

/-! ### Signal Generator (`market_analysis_service.py`, lines 202–346) -/

/-- One row of `market_data` as read by `_analyze_signals` (nullable
indicator columns; `close_price` is non-null). -/
structure IndicatorRow where
  rsi_14 : Option ℚ
  macd : Option ℚ
  macd_signal : Option ℚ
  sma_20 : Option ℚ
  sma_50 : Option ℚ
  close_price : ℚ
  deriving DecidableEq

/-- Python truthiness of a nullable float: `None` and `0.0` are falsy. -/
def truthy (o : Option ℚ) : Bool :=
  match o with
  | none => false
  | some x => decide (x ≠ 0)

/-- The `(signals, weights)` vote lists built by
`MarketAnalysisService._analyze_signals` (lines 277–328), accumulated in
source order: RSI, MACD-vs-signal, SMA20/SMA50 with price confirmation,
trend-strength confirmation, volume confirmation. -/
def signalVotes (d : IndicatorRow) (trend_strength : ℚ)
    (volume_profile : String) : List ℚ × List ℚ :=
  let p1 : List ℚ × List ℚ :=
    if truthy d.rsi_14 then
      let r := d.rsi_14.getD 0
      if r < 30 then ([1], [0.3])
      else if r > 70 then ([-1], [0.3])
      else ([0], [0.1])
    else ([], [])
  let p2 : List ℚ × List ℚ :=
    if truthy d.macd && truthy d.macd_signal then
      if d.macd.getD 0 > d.macd_signal.getD 0 then (p1.1 ++ [1], p1.2 ++ [0.25])
      else (p1.1 ++ [-1], p1.2 ++ [0.25])
    else p1
  let p3 : List ℚ × List ℚ :=
    if truthy d.sma_20 && truthy d.sma_50 then
      let s20 := d.sma_20.getD 0
      let s50 := d.sma_50.getD 0
      if s20 > s50 ∧ d.close_price > s20 then (p2.1 ++ [1], p2.2 ++ [0.2])
      else if s20 < s50 ∧ d.close_price < s20 then (p2.1 ++ [-1], p2.2 ++ [0.2])
      else (p2.1 ++ [0], p2.2 ++ [0.1])
    else p2
  let p4 : List ℚ × List ℚ :=
    if trend_strength > 0.7 then
      (p3.1 ++ [if p3.1.sum > 0 then 1 else -1], p3.2 ++ [0.15])
    else p3
  if volume_profile = "HIGH" then
    (p4.1 ++ [if p4.1.sum > 0 then 1 else -1], p4.2 ++ [0.1])
  else p4

/-- The weighted score of `_analyze_signals` (lines 331–334): `none`
when no indicator voted (the Python `if not signals` early return),
otherwise `Σ s·w / Σ w`. -/
def weightedSignal (d : IndicatorRow) (trend_strength : ℚ)
    (volume_profile : String) : Option ℚ :=
  let sw := signalVotes d trend_strength volume_profile
  if sw.1.isEmpty then none
  else some ((List.zipWith (fun s w => s * w) sw.1 sw.2).sum / sw.2.sum)

/-- The score-to-type thresholds of `_analyze_signals` (lines 337–342). -/
def classifySignal (x : ℚ) : String :=
  if x > 0.3 then (if x > 0.6 then "STRONG_BUY" else "BUY")
  else if x < -0.3 then (if x < -0.6 then "STRONG_SELL" else "SELL")
  else "HOLD"

/-- `MarketAnalysisService._analyze_signals` (lines 274–346): the
`(signal_type, confidence)` pair, with `confidence = min |score| 1`. -/
def analyzeSignals (d : IndicatorRow) (trend_strength : ℚ)
    (volume_profile : String) : String × ℚ :=
  match weightedSignal d trend_strength volume_profile with
  | none => ("HOLD", 0)
  | some x => (classifySignal x, min |x| 1)

/-- The accept/discard decision of
`MarketAnalysisService.generate_trading_signal` (line 239): a candidate
is discarded (`None`) when its type is `HOLD` or its confidence is
below 0.6. -/
def generateSignalDecision (d : IndicatorRow) (trend_strength : ℚ)
    (volume_profile : String) : Option (String × ℚ) :=
  match analyzeSignals d trend_strength volume_profile with
  | (ty, conf) => if ty = "HOLD" ∨ conf < 0.6 then none else some (ty, conf)

/-- C7: every signal that survives the generator's gate has confidence
in `[0.6, 1] ⊆ [0, 1]`, and in particular no signal is returned when
the weighted score magnitude is ≤ 0.3 (the `HOLD` region) or when the
candidate confidence is below 0.6. -/
theorem generate_signal_gate (d : IndicatorRow) (trend_strength : ℚ)
    (volume_profile : String) (ty : String) (conf : ℚ)
    (h : generateSignalDecision d trend_strength volume_profile = some (ty, conf)) :
    0 ≤ conf ∧ conf ≤ 1 ∧ 0.6 ≤ conf ∧
      ∃ x, weightedSignal d trend_strength volume_profile = some x ∧ 0.3 < |x| := by
  unfold generateSignalDecision at h
  rcases hA : analyzeSignals d trend_strength volume_profile with ⟨a, b⟩
  rw [hA] at h
  simp only at h
  by_cases hc : a = "HOLD" ∨ b < 0.6
  · rw [if_pos hc] at h; cases h
  · rw [if_neg hc] at h
    push_neg at hc
    obtain ⟨hty, hconf⟩ := hc
    obtain ⟨rfl, rfl⟩ : a = ty ∧ b = conf := by
      have hp := Option.some.inj h
      exact ⟨congrArg Prod.fst hp, congrArg Prod.snd hp⟩
    unfold analyzeSignals at hA
    cases hws : weightedSignal d trend_strength volume_profile with
    | none =>
      rw [hws] at hA
      simp only [Prod.mk.injEq] at hA
      exact absurd hA.1.symm hty
    | some x =>
      rw [hws] at hA
      simp only [Prod.mk.injEq] at hA
      obtain ⟨hA1, hA2⟩ := hA
      subst hA1
      subst hA2
      refine ⟨le_min (abs_nonneg x) (by norm_num), min_le_right _ _, hconf, x, rfl, ?_⟩
      unfold classifySignal at hty
      by_cases h1 : x > 0.3
      · calc (0.3 : ℚ) < x := h1
          _ ≤ |x| := le_abs_self x
      · rw [if_neg h1] at hty
        by_cases h2 : x < -0.3
        · calc (0.3 : ℚ) < -x := by linarith
            _ ≤ |x| := neg_le_abs x
        · rw [if_neg h2] at hty; exact absurd rfl hty

/-- Witness for `generate_signal_gate`: a row where every indicator
votes buy yields a `STRONG_BUY` with confidence 1. -/
theorem generate_signal_gate_witness :
    generateSignalDecision
        ⟨some 20, some 2, some 1, some 10, some 5, 11⟩ 0.8 "HIGH" =
      some ("STRONG_BUY", 1) ∧
      (0 : ℚ) ≤ 1 ∧ (1 : ℚ) ≤ 1 ∧ (0.6 : ℚ) ≤ 1 ∧
      weightedSignal ⟨some 20, some 2, some 1, some 10, some 5, 11⟩ 0.8 "HIGH" ≠
        none ∧
      0.3 < |(weightedSignal ⟨some 20, some 2, some 1, some 10, some 5, 11⟩
        0.8 "HIGH").getD 0| := by
  have h : generateSignalDecision
      ⟨some 20, some 2, some 1, some 10, some 5, 11⟩ 0.8 "HIGH" =
      some ("STRONG_BUY", 1) := by
    norm_num [generateSignalDecision, analyzeSignals, weightedSignal, signalVotes,
      truthy, classifySignal, List.zipWith]
    decide
  have hg := generate_signal_gate ⟨some 20, some 2, some 1, some 10, some 5, 11⟩
    0.8 "HIGH" "STRONG_BUY" 1 h
  obtain ⟨x, hx, hxgt⟩ := hg.2.2.2
  exact ⟨h, hg.1, hg.2.1, hg.2.2.1, by simp [hx], by simp [hx, hxgt]⟩

/-! ### Data model rows (`position.py`, `portfolio.py`, `trading_signal.py`) -/

/-- A `positions` row (`core/position.py`), with `datetime` dates
modelled as integer day numbers. -/
structure PositionRow where
  id : ℕ
  pair_id : ℕ
  entry_order_id : ℕ
  signal_id : ℕ
  side : String
  amount : ℚ
  entry_price : ℚ
  current_price : Option ℚ
  unrealized_pnl : ℚ
  realized_pnl : ℚ
  stop_loss_price : Option ℚ
  take_profit_price : Option ℚ
  trailing_stop_distance : Option ℚ
  is_open : Bool
  remaining_amount : ℚ
  strategy_type : String
  max_unrealized_pnl : ℚ
  max_unrealized_loss : ℚ
  opened_day : ℤ
  deriving DecidableEq

/-- The `portfolio` singleton row (`core/portfolio.py`), restricted to
the fields the services read or write. -/
structure PortfolioRow where
  total_balance_usd : ℚ
  available_balance_usd : ℚ
  locked_balance_usd : ℚ
  total_pnl : ℚ
  daily_pnl : ℚ
  total_trades : ℕ
  winning_trades : ℕ
  losing_trades : ℕ
  win_rate : ℚ
  average_win : ℚ
  average_loss : ℚ
  profit_factor : ℚ
  current_drawdown : ℚ
  open_positions_count : ℕ
  total_exposure_usd : ℚ
  max_position_size_pct : ℚ
  max_daily_loss_pct : ℚ
  is_trading_enabled : Bool
  deriving DecidableEq

/-- A `trading_signals` row (`core/trading_signal.py`), restricted to
the fields consumed by execution and order creation. -/
structure SignalRec where
  id : ℕ
  pair_id : ℕ
  signal_type : String
  confidence : ℚ
  entry_price : ℚ
  target_price : ℚ
  stop_loss_price : ℚ
  strategy_type : String
  position_size_recommendation : ℚ
  deriving DecidableEq

/-! ### Risk Gate (`portfolio_service.py`, lines 302–355) -/

/-- One alert of `check_risk_limits`; the human-readable `message`
string (pure presentation) is not modelled. -/
structure RiskAlert where
  ty : String
  severity : String
  position_id : Option ℕ
  deriving DecidableEq

/-- The dict returned by `check_risk_limits`. -/
structure RiskReport where
  alerts : List RiskAlert
  risk_status : String
  deriving DecidableEq

/-- The daily-loss check (lines 313–319): a HIGH alert when
`daily_pnl < -(total_balance_usd * max_daily_loss_pct / 100)`. -/
def dailyLossAlerts (pf : PortfolioRow) : List RiskAlert :=
  if pf.daily_pnl < -(pf.total_balance_usd * (pf.max_daily_loss_pct / 100)) then
    [⟨"DAILY_LOSS_LIMIT", "HIGH", none⟩]
  else []

/-- The per-position size test (lines 326–331): a truthy
`current_price` whose mark value exceeds `max_position_size_pct` of the
balance. -/
def positionSizeBreach (pf : PortfolioRow) (p : PositionRow) : Bool :=
  match p.current_price with
  | none => false
  | some c =>
    if c = 0 then false
    else decide ((c * p.remaining_amount / pf.total_balance_usd) * 100 >
      pf.max_position_size_pct)

/-- The position-size check over the open positions (lines 321–337):
one MEDIUM alert per breaching position. -/
def positionSizeAlerts (pf : PortfolioRow) (open_positions : List PositionRow) :
    List RiskAlert :=
  open_positions.filterMap fun p =>
    if positionSizeBreach pf p then some ⟨"POSITION_SIZE_LIMIT", "MEDIUM", some p.id⟩
    else none

/-- The aggregate-exposure check (lines 339–346): a HIGH alert when
exposure exceeds the fixed 50% ceiling. -/
def exposureAlerts (pf : PortfolioRow) : List RiskAlert :=
  if (pf.total_exposure_usd / pf.total_balance_usd) * 100 > 50 then
    [⟨"TOTAL_EXPOSURE_LIMIT", "HIGH", none⟩]
  else []

/-- `PortfolioService.check_risk_limits` (lines 302–351), success path:
the alert list in source order and the overall status — HIGH if any
HIGH alert, else MEDIUM if any alert, else LOW. -/
def check_risk_limits (pf : PortfolioRow) (open_positions : List PositionRow) :
    RiskReport :=
  let alerts := dailyLossAlerts pf ++ positionSizeAlerts pf open_positions ++
    exposureAlerts pf
  ⟨alerts,
    if alerts.any (fun a => a.severity == "HIGH") then "HIGH"
    else if !alerts.isEmpty then "MEDIUM"
    else "LOW"⟩

/-- `check_risk_limits` including its `except` clause (lines 353–355):
`none` stands for any internal failure, which returns
`{'alerts': [], 'risk_status': 'UNKNOWN'}` instead of raising. -/
def check_risk_limits_run (outcome : Option (PortfolioRow × List PositionRow)) :
    RiskReport :=
  match outcome with
  | some (pf, ops) => check_risk_limits pf ops
  | none => ⟨[], "UNKNOWN"⟩

/-! ### Signal execution gate (`trading_bot_service.py`, lines 152–199) -/

/-- `TradingBotService.execute_trading_signals`, with order placement
and persistence abstracted into `createFn` (the outcome of
`order_management_service.create_bracket_order` per signal and USD
notional): refuse everything unless trading is enabled and the risk
status is not `HIGH`; then execute the top 3 signals by confidence,
skipping any whose notional is below the $50 minimum or whose bracket
creation fails. -/
def execute_trading_signals (pf : PortfolioRow) (risk : RiskReport)
    (signals : List SignalRec) (createFn : SignalRec → ℚ → Option PositionRow) :
    List PositionRow :=
  if !pf.is_trading_enabled then []
  else if risk.risk_status == "HIGH" then []
  else
    let sorted := signals.mergeSort (fun a b => b.confidence ≤ a.confidence)
    (sorted.take 3).foldl
      (fun acc sig =>
        let position_size_usd := pf.available_balance_usd *
          (sig.position_size_recommendation / 100)
        if position_size_usd < 50 then acc
        else
          match createFn sig position_size_usd with
          | some p => acc ++ [p]
          | none => acc)
      []

theorem positionSizeAlerts_severity (pf : PortfolioRow) (ops : List PositionRow) :
    ∀ a ∈ positionSizeAlerts pf ops, a.severity = "MEDIUM" := by
  intro a ha
  unfold positionSizeAlerts at ha
  rcases List.mem_filterMap.1 ha with ⟨p, _, hp⟩
  by_cases hb : positionSizeBreach pf p
  · rw [if_pos hb] at hp
    cases hp
    rfl
  · rw [if_neg hb] at hp
    cases hp

theorem positionSizeAlerts_any_high (pf : PortfolioRow) (ops : List PositionRow) :
    (positionSizeAlerts pf ops).any (fun a => a.severity == "HIGH") = false := by
  rw [List.any_eq_false]
  intro a ha
  rw [positionSizeAlerts_severity pf ops a ha]
  decide

theorem positionSizeAlerts_isEmpty (pf : PortfolioRow) (ops : List PositionRow) :
    (positionSizeAlerts pf ops).isEmpty = !(ops.any (positionSizeBreach pf)) := by
  induction ops with
  | nil => rfl
  | cons p t ih =>
    unfold positionSizeAlerts at ih ⊢
    by_cases hb : positionSizeBreach pf p
    · simp [List.filterMap_cons, hb]
    · simp only [List.filterMap_cons, hb, if_neg, Bool.false_eq_true, List.any_cons,
        Bool.false_or]
      exact ih

/-- C3: the returned risk status is `HIGH` exactly when a HIGH-severity
alert exists — the daily-loss limit or the fixed 50% aggregate-exposure
ceiling is breached (per-position size alerts are only MEDIUM) — else
`MEDIUM` when any open position breaches the size limit, else `LOW`;
and whenever the status is `HIGH`, the signal-execution step opens no
positions. -/
theorem check_risk_limits_spec (pf : PortfolioRow) (ops : List PositionRow) :
    ((check_risk_limits pf ops).risk_status =
      if pf.daily_pnl < -(pf.total_balance_usd * (pf.max_daily_loss_pct / 100)) ∨
          (pf.total_exposure_usd / pf.total_balance_usd) * 100 > 50 then "HIGH"
      else if ops.any (positionSizeBreach pf) then "MEDIUM"
      else "LOW") ∧
    (∀ signals createFn,
      (check_risk_limits pf ops).risk_status = "HIGH" →
        execute_trading_signals pf (check_risk_limits pf ops) signals createFn = []) := by
  constructor
  · unfold check_risk_limits dailyLossAlerts exposureAlerts
    by_cases hd : pf.daily_pnl < -(pf.total_balance_usd * (pf.max_daily_loss_pct / 100))
    · simp [hd, positionSizeAlerts_any_high]
    · by_cases he : (pf.total_exposure_usd / pf.total_balance_usd) * 100 > 50
      · simp [hd, he, positionSizeAlerts_any_high]
      · by_cases hp : ops.any (positionSizeBreach pf)
        · simp [hd, he, hp, positionSizeAlerts_any_high, positionSizeAlerts_isEmpty]
        · simp [hd, he, hp, positionSizeAlerts_any_high, positionSizeAlerts_isEmpty]
  · intro signals createFn hhigh
    unfold execute_trading_signals
    rw [hhigh]
    cases hte : pf.is_trading_enabled <;> simp

/-- Witness for `check_risk_limits_spec`: a portfolio whose daily loss
breaches the limit gets status `HIGH`, and execution then opens
nothing. -/
theorem check_risk_limits_spec_witness :
    (check_risk_limits
        ⟨1000, 1000, 0, 0, -100, 0, 0, 0, 0, 0, 0, 0, 0, 0, 0, 5, 2, true⟩
        []).risk_status = "HIGH" ∧
      execute_trading_signals
        ⟨1000, 1000, 0, 0, -100, 0, 0, 0, 0, 0, 0, 0, 0, 0, 0, 5, 2, true⟩
        (check_risk_limits
          ⟨1000, 1000, 0, 0, -100, 0, 0, 0, 0, 0, 0, 0, 0, 0, 0, 5, 2, true⟩ [])
        [] (fun _ _ => none) = [] := by
  have hs :=
    (check_risk_limits_spec
      ⟨1000, 1000, 0, 0, -100, 0, 0, 0, 0, 0, 0, 0, 0, 0, 0, 5, 2, true⟩ []).1
  have hhigh : (check_risk_limits
      ⟨1000, 1000, 0, 0, -100, 0, 0, 0, 0, 0, 0, 0, 0, 0, 0, 5, 2, true⟩
      []).risk_status = "HIGH" := by
    rw [hs]
    norm_num
  exact ⟨hhigh,
    (check_risk_limits_spec
      ⟨1000, 1000, 0, 0, -100, 0, 0, 0, 0, 0, 0, 0, 0, 0, 0, 5, 2, true⟩ []).2
      [] (fun _ _ => none) hhigh⟩

/-- C10: an internal failure of the risk check yields
`{'alerts': [], 'risk_status': 'UNKNOWN'}` rather than raising, and —
because execution refuses only on status `HIGH` — the `UNKNOWN` report
gates execution exactly as a `LOW` one does: new positions may still be
opened. -/
theorem check_risk_limits_failure_unknown :
    check_risk_limits_run none = ⟨[], "UNKNOWN"⟩ ∧
      ∀ pf signals createFn,
        execute_trading_signals pf (check_risk_limits_run none) signals createFn =
          execute_trading_signals pf ⟨[], "LOW"⟩ signals createFn := by
  refine ⟨rfl, fun pf signals createFn => ?_⟩
  unfold execute_trading_signals check_risk_limits_run
  rfl

/-! ### Portfolio Accountant (`portfolio_service.py`, lines 80–215) -/

/-- The metrics dict computed by
`PortfolioService.calculate_portfolio_metrics`. -/
structure Metrics where
  total_balance_usd : ℚ
  available_balance_usd : ℚ
  total_pnl : ℚ
  realized_pnl : ℚ
  unrealized_pnl : ℚ
  daily_pnl : ℚ
  total_trades : ℕ
  open_positions_count : ℕ
  winning_trades : ℕ
  losing_trades : ℕ
  win_rate : ℚ
  average_win : ℚ
  average_loss : ℚ
  profit_factor : ℚ
  current_drawdown : ℚ
  total_exposure_usd : ℚ
  deriving DecidableEq

/-- The side-aware mark-to-market P&L of one open position (lines
102–108 and 226–229): zero when `current_price` is not truthy. -/
def positionUnrealizedPnl (p : PositionRow) : ℚ :=
  match p.current_price with
  | none => 0
  | some c =>
    if c = 0 then 0
    else if p.side = "long" then (c - p.entry_price) * p.remaining_amount
    else (p.entry_price - c) * p.remaining_amount

/-- The mark value of one open position for the exposure sum (lines
141–145): zero when `current_price` is not truthy. -/
def positionExposure (p : PositionRow) : ℚ :=
  match p.current_price with
  | none => 0
  | some c => if c = 0 then 0 else c * p.remaining_amount

/-- `PortfolioService.calculate_portfolio_metrics` (lines 80–173),
success path: a pure recomputation over the full position ledger plus
the portfolio balances, with `today` the current day number. -/
def calculate_portfolio_metrics (positions : List PositionRow)
    (pf : PortfolioRow) (today : ℤ) : Metrics :=
  let open_positions := positions.filter (fun p => p.is_open)
  let closed_positions := positions.filter (fun p => !p.is_open)
  let total_realized_pnl := (closed_positions.map (fun p => p.realized_pnl)).sum
  let total_unrealized_pnl := (open_positions.map positionUnrealizedPnl).sum
  let winning_trades := (closed_positions.filter (fun p => p.realized_pnl > 0)).length
  let losing_trades := (closed_positions.filter (fun p => p.realized_pnl < 0)).length
  let win_rate := if closed_positions.isEmpty then 0
    else ((winning_trades : ℚ) / (closed_positions.length : ℚ)) * 100
  let winning_pnls := (closed_positions.filter (fun p => p.realized_pnl > 0)).map
    (fun p => p.realized_pnl)
  let losing_pnls := (closed_positions.filter (fun p => p.realized_pnl < 0)).map
    (fun p => p.realized_pnl)
  let average_win := if winning_pnls.isEmpty then 0
    else winning_pnls.sum / (winning_pnls.length : ℚ)
  let average_loss := if losing_pnls.isEmpty then 0
    else losing_pnls.sum / (losing_pnls.length : ℚ)
  let total_wins := winning_pnls.sum
  let total_losses := |losing_pnls.sum|
  let profit_factor := if total_losses > 0 then total_wins / total_losses else 0
  let total_pnl := total_realized_pnl + total_unrealized_pnl
  let max_pnl := (positions.map (fun p => p.max_unrealized_pnl)).foldl max 0
  let current_drawdown := if max_pnl > 0 then max 0 (max_pnl - total_pnl) else 0
  let daily_positions := positions.filter (fun p => p.opened_day = today)
  let daily_pnl := ((daily_positions.filter (fun p => !p.is_open)).map
    (fun p => p.realized_pnl)).sum
  let total_exposure := (open_positions.map positionExposure).sum
  { total_balance_usd := pf.total_balance_usd
    available_balance_usd := pf.available_balance_usd
    total_pnl := total_pnl
    realized_pnl := total_realized_pnl
    unrealized_pnl := total_unrealized_pnl
    daily_pnl := daily_pnl
    total_trades := positions.length
    open_positions_count := open_positions.length
    winning_trades := winning_trades
    losing_trades := losing_trades
    win_rate := win_rate
    average_win := average_win
    average_loss := average_loss
    profit_factor := profit_factor
    current_drawdown := current_drawdown
    total_exposure_usd := total_exposure }

/-- `PortfolioService._update_portfolio_metrics` (lines 175–215): the
write-back of the computed metrics onto the portfolio row.  It touches
only derived metric columns, never the balance columns. -/
def update_portfolio_metrics (pf : PortfolioRow) (m : Metrics) : PortfolioRow :=
  { pf with
    total_pnl := m.total_pnl
    daily_pnl := m.daily_pnl
    total_trades := m.total_trades
    winning_trades := m.winning_trades
    losing_trades := m.losing_trades
    win_rate := m.win_rate
    average_win := m.average_win
    average_loss := m.average_loss
    profit_factor := m.profit_factor
    current_drawdown := m.current_drawdown
    open_positions_count := m.open_positions_count
    total_exposure_usd := m.total_exposure_usd }

/-- C9: recomputing the portfolio metrics twice in succession over an
unchanged position ledger and unchanged balances, on the same calendar
day — the second run reading the portfolio row as updated by the first
run's write-back — yields identical metric values. -/
theorem calculate_portfolio_metrics_idempotent (positions : List PositionRow)
    (pf : PortfolioRow) (today : ℤ) :
    calculate_portfolio_metrics positions
        (update_portfolio_metrics pf (calculate_portfolio_metrics positions pf today))
        today =
      calculate_portfolio_metrics positions pf today := rfl

/-! ### Bracket Order Manager (`order_management_service.py`) -/

/-- A `crypto_pairs` row (`core/crypto_pair.py`), restricted to the
fields order creation reads. -/
structure PairRow where
  symbol : String
  min_order_size : ℚ
  price_precision : ℕ
  volume_precision : ℕ
  deriving DecidableEq

/-- An `orders` row (`core/order.py`). -/
structure OrderRow where
  id : ℕ
  kraken_order_id : Option String
  pair_id : ℕ
  signal_id : ℕ
  order_type : String
  side : String
  amount : ℚ
  price : Option ℚ
  status : String
  filled_amount : ℚ
  average_price : Option ℚ
  stop_loss_order_id : Option ℕ
  take_profit_order_id : Option ℕ
  fee : Option ℚ
  deriving DecidableEq

/-- One value of the in-memory `active_bracket_orders` map
(`order_management_service.py`, lines 74–82). -/
structure BracketInfo where
  position_id : ℕ
  entry_order_id : ℕ
  signal_id : ℕ
  stop_loss_price : ℚ
  take_profit_price : ℚ
  side : String
  amount : ℚ
  deriving DecidableEq

/-- The persistent ledger plus the in-memory bracket map plus the
requests issued to the exchange: the state read and written by
`OrderManagementService`.  `cancel_requests` records the
`kraken_service.cancel_order` calls in issue order. -/
structure LedgerState where
  orders : List OrderRow
  positions : List PositionRow
  active_bracket_orders : List (ℕ × BracketInfo)
  cancel_requests : List String
  deriving DecidableEq

/-- The exchange/persistence outcome of one successful `_place_order`
call: the new row id and Kraken's order id. -/
structure PlaceOutcome where
  id : ℕ
  kraken_order_id : Option String
  deriving DecidableEq

/-- The `orders` row inserted by `OrderManagementService._place_order`
(lines 119–131) on success: status `open`, nothing filled yet. -/
def mkPlacedOrder (out : PlaceOutcome) (pair_id signal_id : ℕ)
    (order_type side : String) (amount : ℚ) (price : Option ℚ) : OrderRow :=
  { id := out.id
    kraken_order_id := out.kraken_order_id
    pair_id := pair_id
    signal_id := signal_id
    order_type := order_type
    side := side
    amount := amount
    price := price
    status := "open"
    filled_amount := 0
    average_price := none
    stop_loss_order_id := none
    take_profit_order_id := none
    fee := none }

/-- Python `round(x, p)`: round half to even at `p` decimal places. -/
def roundHalfEven (x : ℚ) : ℤ :=
  let f := Int.floor x
  if x - f < 1/2 then f
  else if x - f > 1/2 then f + 1
  else if f % 2 = 0 then f else f + 1

/-- Round a rational to `p` decimal places, banker's rounding. -/
def roundTo (x : ℚ) (p : ℕ) : ℚ :=
  ((roundHalfEven (x * 10 ^ p) : ℤ) : ℚ) / 10 ^ p

/-- `OrderManagementService.create_bracket_order` (lines 19–88).
`pair` is the `crypto_pairs` lookup result (`none` = not found, which
raises and is caught); `entryOutcome` is the `_place_order` result for
the entry order; `newPosId` is the id the persistence layer assigns to
the new Position; `today` is the current day.  Returns the created
Position (if any) and the successor state. -/
def create_bracket_order (st : LedgerState) (pair : Option PairRow)
    (signal : SignalRec) (position_size_usd : ℚ)
    (entryOutcome : Option PlaceOutcome) (newPosId : ℕ) (today : ℤ) :
    Option PositionRow × LedgerState :=
  match pair with
  | none => (none, st)
  | some pr =>
    let amount := roundTo (position_size_usd / signal.entry_price) pr.volume_precision
    if amount < pr.min_order_size then (none, st)
    else
      let side := if signal.signal_type = "BUY" ∨ signal.signal_type = "STRONG_BUY"
        then "buy" else "sell"
      match entryOutcome with
      | none => (none, st)
      | some out =>
        let entry_row := mkPlacedOrder out signal.pair_id signal.id "limit" side
          amount (some signal.entry_price)
        let pos : PositionRow :=
          { id := newPosId
            pair_id := signal.pair_id
            entry_order_id := out.id
            signal_id := signal.id
            side := if side = "buy" then "long" else "short"
            amount := amount
            entry_price := signal.entry_price
            current_price := none
            unrealized_pnl := 0
            realized_pnl := 0
            stop_loss_price := some signal.stop_loss_price
            take_profit_price := some signal.target_price
            trailing_stop_distance := none
            is_open := true
            remaining_amount := amount
            strategy_type := signal.strategy_type
            max_unrealized_pnl := 0
            max_unrealized_loss := 0
            opened_day := today }
        let info : BracketInfo :=
          ⟨newPosId, out.id, signal.id, signal.stop_loss_price, signal.target_price,
            side, amount⟩
        (some pos,
          { st with
            orders := st.orders ++ [entry_row]
            positions := st.positions ++ [pos]
            active_bracket_orders := st.active_bracket_orders ++ [(out.id, info)] })

/-- `OrderManagementService._handle_entry_fill` (lines 219–283).
`stopOutcome` and `tpOutcome` are the `_place_order` results for the
protective stop-loss and take-profit orders.  Faithfully to the source:
the Position is updated first; the two protective placements are
attempted; the child-order ids are written back onto the entry order
only if **both** succeeded; and the `active_bracket_orders` entry is
deleted unconditionally — also when a placement failed, in which case
the only trace of the failure is a log line. -/
def handle_entry_fill (st : LedgerState) (entry : OrderRow)
    (filled_amount : ℚ) (average_price : ℚ)
    (stopOutcome tpOutcome : Option PlaceOutcome) : LedgerState :=
  match st.active_bracket_orders.lookup entry.id with
  | none => st
  | some info =>
    let positions1 := st.positions.map fun p =>
      if p.id = info.position_id then
        { p with
          entry_price := average_price
          current_price := some average_price
          remaining_amount := filled_amount }
      else p
    let child_side := if info.side = "buy" then "sell" else "buy"
    let stop_row := stopOutcome.map fun out =>
      mkPlacedOrder out entry.pair_id info.signal_id "stop-loss" child_side
        filled_amount (some info.stop_loss_price)
    let tp_row := tpOutcome.map fun out =>
      mkPlacedOrder out entry.pair_id info.signal_id "limit" child_side
        filled_amount (some info.take_profit_price)
    let orders1 := st.orders ++ stop_row.toList ++ tp_row.toList
    let orders2 :=
      match stop_row, tp_row with
      | some s, some t =>
        orders1.map fun o =>
          if o.id = entry.id then
            { o with
              stop_loss_order_id := some s.id
              take_profit_order_id := some t.id }
          else o
      | _, _ => orders1
    { st with
      positions := positions1
      orders := orders2
      active_bracket_orders :=
        st.active_bracket_orders.filter (fun kv => kv.1 ≠ entry.id) }

/-- `OrderManagementService.adjust_stop_loss` (lines 285–345).
`newStopOutcome` is the `_place_order` result for the replacement stop
order.  The candidate price is accepted blindly here — the tightening
guard lives in the caller, `TradingBotService._check_trailing_stop`. -/
def adjust_stop_loss (st : LedgerState) (position_id : ℕ)
    (new_stop_price : ℚ) (newStopOutcome : Option PlaceOutcome) :
    Bool × LedgerState :=
  match st.positions.find? (fun p => p.id == position_id && p.is_open) with
  | none => (false, st)
  | some pos =>
    match st.orders.find? (fun o => o.id == pos.entry_order_id) with
    | none => (false, st)
    | some entry =>
      match entry.stop_loss_order_id with
      | none => (false, st)
      | some sid =>
        match st.orders.find? (fun o => o.id == sid) with
        | none => (false, st)
        | some current_stop =>
          let st1 :=
            match current_stop.kraken_order_id with
            | some k => { st with cancel_requests := st.cancel_requests ++ [k] }
            | none => st
          match newStopOutcome with
          | none => (false, st1)
          | some out =>
            let row := mkPlacedOrder out pos.pair_id pos.signal_id "stop-loss"
              (if pos.side = "long" then "sell" else "buy")
              pos.remaining_amount (some new_stop_price)
            (true,
              { st1 with
                orders := (st1.orders ++ [row]).map fun o =>
                  if o.id = pos.entry_order_id then
                    { o with stop_loss_order_id := some out.id }
                  else o
                positions := st1.positions.map fun p =>
                  if p.id = position_id then
                    { p with stop_loss_price := some new_stop_price }
                  else p })

/-- The tightening guard of `TradingBotService._check_trailing_stop`
(lines 247–288): the candidate stop the trailing logic computes from
the current price, returned only when it tightens the current stop
(strictly above for a long, strictly below for a short). -/
def trailingCandidate (side : String) (stop_loss_price dist current_price : ℚ) :
    Option ℚ :=
  if side = "long" then
    if current_price - dist > stop_loss_price then some (current_price - dist)
    else none
  else
    if current_price + dist < stop_loss_price then some (current_price + dist)
    else none

/-- One monitoring tick of the trailing-stop logic, abstracted to the
position's stop price: the guard proposes a candidate, and the stop
moves to it exactly when `adjust_stop_loss` succeeds (the event's
Boolean). -/
def trailing_step (side : String) (dist : ℚ) (stop : ℚ) (event : ℚ × Bool) : ℚ :=
  match trailingCandidate side stop dist event.1 with
  | some ns => if event.2 then ns else stop
  | none => stop

/-- A sequence of monitoring ticks, each with a current price and an
`adjust_stop_loss` success flag. -/
def run_trailing (side : String) (dist stop0 : ℚ) (events : List (ℚ × Bool)) : ℚ :=
  events.foldl (trailing_step side dist) stop0

/-- `OrderManagementService._cancel_position_orders` (lines 398–424):
the Kraken cancellations issued for a position's protective orders, in
source order; a failed lookup raises and aborts the remaining
cancellations (the exception is caught inside this helper). -/
def cancelIdsFor (st : LedgerState) (oid : Option ℕ) : Option (List String) :=
  match oid with
  | none => some []
  | some i =>
    match st.orders.find? (fun o => o.id == i) with
    | none => none
    | some o =>
      match o.kraken_order_id with
      | some k => some [k]
      | none => some []

/-- The cancellations `_cancel_position_orders` issues for
`position_id`: stop-loss first, then take-profit. -/
def cancel_position_orders (st : LedgerState) (position_id : ℕ) : List String :=
  match st.positions.find? (fun p => p.id == position_id) with
  | none => []
  | some pos =>
    match st.orders.find? (fun o => o.id == pos.entry_order_id) with
    | none => []
    | some entry =>
      match cancelIdsFor st entry.stop_loss_order_id with
      | none => []
      | some l1 =>
        match cancelIdsFor st entry.take_profit_order_id with
        | none => l1
        | some l2 => l1 ++ l2

/-- `OrderManagementService.close_position` (lines 347–396).
`closeOutcome` is the `_place_order` result for the closing market
order.  The protective orders are cancelled (`_cancel_position_orders`)
before the closing order is placed; on placement failure the function
returns `False` with the position still open and the cancellations not
rolled back. -/
def close_position (st : LedgerState) (position_id : ℕ)
    (closeOutcome : Option PlaceOutcome) : Bool × LedgerState :=
  match st.positions.find? (fun p => p.id == position_id && p.is_open) with
  | none => (false, st)
  | some pos =>
    let st1 := { st with
      cancel_requests := st.cancel_requests ++ cancel_position_orders st position_id }
    match closeOutcome with
    | none => (false, st1)
    | some out =>
      let row := mkPlacedOrder out pos.pair_id pos.signal_id "market"
        (if pos.side = "long" then "sell" else "buy") pos.remaining_amount none
      (true,
        { st1 with
          orders := st1.orders ++ [row]
          positions := st1.positions.map fun p =>
            if p.id = position_id then { p with is_open := false } else p })

/-! ### C4: atomicity of `create_bracket_order` -/

/-- C4: if the rounded amount is below the pair's minimum order size,
or the entry-order placement fails, `create_bracket_order` returns no
Position and leaves the whole ledger state unchanged. -/
theorem create_bracket_order_atomic (st : LedgerState) (pr : PairRow)
    (signal : SignalRec) (position_size_usd : ℚ)
    (entryOutcome : Option PlaceOutcome) (newPosId : ℕ) (today : ℤ)
    (h : roundTo (position_size_usd / signal.entry_price) pr.volume_precision <
        pr.min_order_size ∨ entryOutcome = none) :
    create_bracket_order st (some pr) signal position_size_usd entryOutcome
      newPosId today = (none, st) := by
  simp only [create_bracket_order]
  rcases h with h | h
  · rw [if_pos h]
  · subst h
    by_cases ha : roundTo (position_size_usd / signal.entry_price)
        pr.volume_precision < pr.min_order_size
    · rw [if_pos ha]
    · rw [if_neg ha]

/-- Witness for `create_bracket_order_atomic`: $50 at entry price 100
rounds to 0.5, which banker's-rounds to 0 at volume precision 0, below
the minimum order size 1 — nothing is created. -/
theorem create_bracket_order_atomic_witness :
    (roundTo ((50 : ℚ) / 100) 0 < (1 : ℚ) ∨
      (some ⟨21, some "K9"⟩ : Option PlaceOutcome) = none) ∧
    create_bracket_order ⟨[], [], [], []⟩ (some ⟨"BTCUSD", 1, 2, 0⟩)
        ⟨5, 100, "BUY", 1, 100, 104, 98, "SCALP", 2⟩ 50 (some ⟨21, some "K9"⟩)
        7 0 = (none, ⟨[], [], [], []⟩) := by
  have hlt : roundTo ((50 : ℚ) / 100) 0 < (1 : ℚ) := by
    have hfloor : Int.floor ((50 : ℚ) / 100 * 10 ^ (0 : ℕ)) = 0 := by
      norm_num [Int.floor_eq_iff]
    norm_num [roundTo, roundHalfEven, hfloor]
  refine ⟨Or.inl hlt, ?_⟩
  exact create_bracket_order_atomic ⟨[], [], [], []⟩ ⟨"BTCUSD", 1, 2, 0⟩
    ⟨5, 100, "BUY", 1, 100, 104, 98, "SCALP", 2⟩ 50 (some ⟨21, some "K9"⟩) 7 0
    (Or.inl hlt)

/-! ### C1: fill handling and the silent unprotected drop -/

/-- The entry order of the C1 scenario: a tracked, open limit buy. -/
def c1Entry : OrderRow :=
  { id := 1
    kraken_order_id := some "K1"
    pair_id := 100
    signal_id := 5
    order_type := "limit"
    side := "buy"
    amount := 1
    price := some 100
    status := "open"
    filled_amount := 0
    average_price := none
    stop_loss_order_id := none
    take_profit_order_id := none
    fee := none }

/-- The ledger of the C1 scenario: the entry order, its Position, and
its `active_bracket_orders` correlation entry. -/
def c1State : LedgerState :=
  { orders := [c1Entry]
    positions := [{ id := 10
                    pair_id := 100
                    entry_order_id := 1
                    signal_id := 5
                    side := "long"
                    amount := 1
                    entry_price := 100
                    current_price := none
                    unrealized_pnl := 0
                    realized_pnl := 0
                    stop_loss_price := some 98
                    take_profit_price := some 104
                    trailing_stop_distance := none
                    is_open := true
                    remaining_amount := 1
                    strategy_type := "SCALP"
                    max_unrealized_pnl := 0
                    max_unrealized_loss := 0
                    opened_day := 0 }]
    active_bracket_orders := [(1, ⟨10, 1, 5, 98, 104, "buy", 1⟩)]
    cancel_requests := [] }

/-- C1 failing input: the tracked entry order fills but both protective
placements fail (`_place_order` returns `None` twice).
`_handle_entry_fill` then places no protective order, records no child
ids on the entry order — and still deletes the bracket-correlation
entry, leaving no retry state and no error state anywhere: the filled
position is silently left unprotected, contrary to the claim's
"flagged for retry, never silently neither". -/
theorem handle_entry_fill_silent_drop :
    (handle_entry_fill c1State c1Entry 1 100 none none).active_bracket_orders
        = [] ∧
      (handle_entry_fill c1State c1Entry 1 100 none none).orders
        = c1State.orders ∧
      (handle_entry_fill c1State c1Entry 1 100 none none).cancel_requests = [] ∧
      ((handle_entry_fill c1State c1Entry 1 100 none none).positions.map
        (fun p => p.is_open)) = [true] := by
  decide

/-! ### C2: trailing stops only tighten -/

/-- C2: the trailing-stop guard accepts a candidate only when it
strictly tightens the stop (above the current stop for a long, below
for a short); hence each monitoring tick can only move the stop towards
the price, the stop price is monotone across any sequence of ticks
(non-decreasing for a long, non-increasing for a short), and a
successful `adjust_stop_loss` stores exactly the accepted candidate on
the position. -/
theorem trailing_stop_tightens (dist stop0 : ℚ) :
    (∀ stop current ns,
      trailingCandidate "long" stop dist current = some ns → stop < ns) ∧
    (∀ stop current ns,
      trailingCandidate "short" stop dist current = some ns → ns < stop) ∧
    (∀ stop e, stop ≤ trailing_step "long" dist stop e) ∧
    (∀ stop e, trailing_step "short" dist stop e ≤ stop) ∧
    (∀ events, stop0 ≤ run_trailing "long" dist stop0 events) ∧
    (∀ events, run_trailing "short" dist stop0 events ≤ stop0) ∧
    (∀ st pid ns out st1, adjust_stop_loss st pid ns out = (true, st1) →
      ∀ p ∈ st1.positions, p.id = pid → p.stop_loss_price = some ns) := by
  have hlc : ∀ stop current ns : ℚ,
      trailingCandidate "long" stop dist current = some ns → stop < ns := by
    intro stop current ns h
    unfold trailingCandidate at h
    rw [if_pos rfl] at h
    by_cases hc : current - dist > stop
    · rw [if_pos hc] at h
      cases h
      exact hc
    · rw [if_neg hc] at h
      cases h
  have hsc : ∀ stop current ns : ℚ,
      trailingCandidate "short" stop dist current = some ns → ns < stop := by
    intro stop current ns h
    unfold trailingCandidate at h
    rw [if_neg (by decide)] at h
    by_cases hc : current + dist < stop
    · rw [if_pos hc] at h
      cases h
      exact hc
    · rw [if_neg hc] at h
      cases h
  have hls : ∀ (stop : ℚ) (e : ℚ × Bool), stop ≤ trailing_step "long" dist stop e := by
    intro stop e
    unfold trailing_step
    cases h : trailingCandidate "long" stop dist e.1 with
    | none => exact le_refl stop
    | some ns =>
      cases he : e.2 with
      | false => exact le_refl stop
      | true => exact (hlc stop e.1 ns h).le
  have hss : ∀ (stop : ℚ) (e : ℚ × Bool), trailing_step "short" dist stop e ≤ stop := by
    intro stop e
    unfold trailing_step
    cases h : trailingCandidate "short" stop dist e.1 with
    | none => exact le_refl stop
    | some ns =>
      cases he : e.2 with
      | false => exact le_refl stop
      | true => exact (hsc stop e.1 ns h).le
  have hrl : ∀ (events : List (ℚ × Bool)) (stop : ℚ),
      stop ≤ run_trailing "long" dist stop events := by
    intro events
    induction events with
    | nil => intro stop; exact le_refl _
    | cons e t ih =>
      intro stop
      unfold run_trailing at ih ⊢
      rw [List.foldl_cons]
      exact le_trans (hls stop e) (ih _)
  have hrs : ∀ (events : List (ℚ × Bool)) (stop : ℚ),
      run_trailing "short" dist stop events ≤ stop := by
    intro events
    induction events with
    | nil => intro stop; exact le_refl _
    | cons e t ih =>
      intro stop
      unfold run_trailing at ih ⊢
      rw [List.foldl_cons]
      exact le_trans (ih _) (hss stop e)
  refine ⟨hlc, hsc, hls, hss, fun ev => hrl ev stop0, fun ev => hrs ev stop0, ?_⟩
  intro st pid ns out st1 h p hp hpid
  simp only [adjust_stop_loss] at h
  cases h1 : st.positions.find? (fun p => p.id == pid && p.is_open) with
  | none =>
    simp only [h1] at h
    exact absurd (congrArg Prod.fst h) Bool.false_ne_true
  | some pos =>
    simp only [h1] at h
    cases h2 : st.orders.find? (fun o => o.id == pos.entry_order_id) with
    | none =>
      simp only [h2] at h
      exact absurd (congrArg Prod.fst h) Bool.false_ne_true
    | some entry =>
      simp only [h2] at h
      cases h3 : entry.stop_loss_order_id with
      | none =>
        simp only [h3] at h
        exact absurd (congrArg Prod.fst h) Bool.false_ne_true
      | some sid =>
        simp only [h3] at h
        cases h4 : st.orders.find? (fun o => o.id == sid) with
        | none =>
          simp only [h4] at h
          exact absurd (congrArg Prod.fst h) Bool.false_ne_true
        | some current_stop =>
          simp only [h4] at h
          cases hout : out with
          | none =>
            simp only [hout] at h
            exact absurd (congrArg Prod.fst h) Bool.false_ne_true
          | some o =>
            simp only [hout] at h
            simp only [Prod.mk.injEq, true_and] at h
            subst h
            simp only [List.mem_map] at hp
            obtain ⟨q, _, rfl⟩ := hp
            by_cases hid : q.id = pid
            · rw [if_pos hid]
            · rw [if_neg hid] at hpid ⊢
              exact absurd hpid hid

/-- Witness for `trailing_stop_tightens`: a long at stop 98 with
trailing distance 1 and current price 100 gets the candidate 99, which
strictly tightens 98. -/
theorem trailing_stop_tightens_witness :
    trailingCandidate "long" 98 1 100 = some 99 ∧ (98 : ℚ) < 99 := by
  have hc : trailingCandidate "long" 98 1 100 = some 99 := by
    norm_num [trailingCandidate]
  exact ⟨hc, (trailing_stop_tightens 1 98).1 98 100 99 hc⟩

/-! ### C5: close_position's failure path -/

/-- C5: when the closing market order fails to place, `close_position`
returns `False` and the only state change is the protective-order
cancellations already issued to the exchange — the position stays open
(`is_open` still true), and the cancellations are not rolled back. -/
theorem close_position_failure_keeps_open (st : LedgerState) (position_id : ℕ)
    (pos : PositionRow)
    (h : st.positions.find? (fun p => p.id == position_id && p.is_open) = some pos) :
    pos.is_open = true ∧
      close_position st position_id none =
        (false,
          { st with cancel_requests :=
              st.cancel_requests ++ cancel_position_orders st position_id }) := by
  constructor
  · have hpred := List.find?_some h
    simp only [Bool.and_eq_true] at hpred
    exact hpred.2
  · unfold close_position
    rw [h]

/-- The open position of the C5 scenario. -/
def c5Pos : PositionRow :=
  { id := 10
    pair_id := 100
    entry_order_id := 1
    signal_id := 5
    side := "long"
    amount := 1
    entry_price := 100
    current_price := some 100
    unrealized_pnl := 0
    realized_pnl := 0
    stop_loss_price := some 98
    take_profit_price := some 104
    trailing_stop_distance := none
    is_open := true
    remaining_amount := 1
    strategy_type := "SCALP"
    max_unrealized_pnl := 0
    max_unrealized_loss := 0
    opened_day := 0 }

/-- The ledger of the C5 scenario: an open protected position whose
entry order references a live stop order (`"S1"`) and take-profit
order (`"T1"`). -/
def c5State : LedgerState :=
  { orders :=
      [{ id := 1
         kraken_order_id := some "K1"
         pair_id := 100
         signal_id := 5
         order_type := "limit"
         side := "buy"
         amount := 1
         price := some 100
         status := "closed"
         filled_amount := 1
         average_price := some 100
         stop_loss_order_id := some 2
         take_profit_order_id := some 3
         fee := none },
       { id := 2
         kraken_order_id := some "S1"
         pair_id := 100
         signal_id := 5
         order_type := "stop-loss"
         side := "sell"
         amount := 1
         price := some 98
         status := "open"
         filled_amount := 0
         average_price := none
         stop_loss_order_id := none
         take_profit_order_id := none
         fee := none },
       { id := 3
         kraken_order_id := some "T1"
         pair_id := 100
         signal_id := 5
         order_type := "limit"
         side := "sell"
         amount := 1
         price := some 104
         status := "open"
         filled_amount := 0
         average_price := none
         stop_loss_order_id := none
         take_profit_order_id := none
         fee := none }]
    positions := [c5Pos]
    active_bracket_orders := []
    cancel_requests := [] }

/-- Witness for `close_position_failure_keeps_open`: on `c5State`, a
failing close placement leaves the position open while the two
protective cancellations (`"S1"`, `"T1"`) stand issued. -/
theorem close_position_failure_keeps_open_witness :
    c5State.positions.find? (fun p => p.id == 10 && p.is_open) = some c5Pos ∧
      cancel_position_orders c5State 10 = ["S1", "T1"] ∧
      close_position c5State 10 none =
        (false,
          { c5State with cancel_requests :=
              c5State.cancel_requests ++ cancel_position_orders c5State 10 }) := by
  have hfind : c5State.positions.find? (fun p => p.id == 10 && p.is_open) =
      some c5Pos := by decide
  exact ⟨hfind, by decide,
    (close_position_failure_keeps_open c5State 10 c5Pos hfind).2⟩

end SolarBot
